import Mathlib

/-
  Shallow embedding of the gesture-runner game core
  (GameEngine in index.html, ObstacleManager in src/js/game/ObstacleManager.js).

  JavaScript numbers are modelled as exact rationals; at the small magnitudes
  appearing in the concrete scenarios below the double-precision computations
  of the source coincide with exact rational arithmetic.  JavaScript arrays
  are lists; the live-array semantics of forEach and filter (index walk over
  the original length, reading the current array, skipping holes created by
  splice) is modelled explicitly where the source mutates the array during
  iteration.  Object identity of pooled meshes is modelled by numeric ids in
  a mesh store; live-list entries reference meshes by id.
-/

namespace SPSGame

/-- Gesture symbols delivered by the recognizer and stored in playerGesture
(the source uses the strings none, rock, paper, scissors, unknown). -/
inductive Gesture
  | gnone
  | rock
  | paper
  | scissors
  | unknown
deriving DecidableEq

/-- Obstacle kinds (the source uses the strings rock, paper, scissors). -/
inductive Kind
  | rock
  | paper
  | scissors
deriving DecidableEq

/-- An obstacle kind compared as a gesture string, as in the tie test
playerGesture === obstacleType of handleCollision. -/
def kindGesture : Kind → Gesture
  | Kind.rock => Gesture.rock
  | Kind.paper => Gesture.paper
  | Kind.scissors => Gesture.scissors

/-- GameEngine.getRequiredGesture: the gesture that beats the obstacle. -/
def getRequiredGesture : Kind → Gesture
  | Kind.rock => Gesture.paper
  | Kind.paper => Gesture.scissors
  | Kind.scissors => Gesture.rock

/-- Collision outcomes, following the branch structure of handleCollision. -/
inductive Outcome
  | win
  | tie
  | loss
deriving DecidableEq

/-- The outcome decision of handleCollision as a pure function of the player
gesture and the obstacle kind: gesture none loses, the required gesture wins,
the obstacle kind itself ties, anything else loses. -/
def resolveOutcome (g : Gesture) (k : Kind) : Outcome :=
  if g = Gesture.gnone then Outcome.loss
  else if g = getRequiredGesture k then Outcome.win
  else if g = kindGesture k then Outcome.tie
  else Outcome.loss

/-- A pooled obstacle mesh: identity, kind of its pool, the userData.active
flag and the position along the travel axis (position.z). -/
structure PMesh where
  id : Nat
  kind : Kind
  active : Bool
  z : ℚ
deriving DecidableEq

/-- A live-list entry pushed by spawnObstacle: the referenced mesh, the type,
lane and spawnTime fields. -/
structure Entry where
  meshId : Nat
  type : Kind
  lane : Int
  spawnTime : Int
deriving DecidableEq

/-- ObstacleManager state: the union of the per-kind pools (pool membership
is by the kind field, order per kind is insertion order as in the source),
the live list this.obstacles, a fresh-id counter for lazily created meshes,
and the spawn, despawn and minimum-distance configuration. -/
structure Registry where
  pool : List PMesh
  obstacles : List Entry
  nextId : Nat
  spawnDistance : ℚ
  despawnDistance : ℚ
  minObstacleDistance : ℚ
deriving DecidableEq

/-- Look up a mesh in the store by id. -/
def Registry.mesh? (r : Registry) (i : Nat) : Option PMesh :=
  r.pool.find? (fun m => m.id = i)

/-- Read mesh.position.z through an id (0 for a dangling id, which does not
occur in well-formed states). -/
def Registry.zOf (r : Registry) (i : Nat) : ℚ :=
  ((r.mesh? i).map PMesh.z).getD 0

/-- Read mesh.userData.active through an id (false for a dangling id). -/
def Registry.activeOf (r : Registry) (i : Nat) : Bool :=
  ((r.mesh? i).map PMesh.active).getD false

/-- Mutate the mesh with the given id in the store. -/
def Registry.setMesh (r : Registry) (i : Nat) (f : PMesh → PMesh) : Registry :=
  { r with pool := r.pool.map (fun m => if m.id = i then f m else m) }

/-- ObstacleManager.removeObstacle: mark the mesh inactive, reset its
position, and splice the entry out of the live list (indexOf finds the first
occurrence; with distinct live entries this is the entry itself, and a
missing entry leaves the list unchanged, as indexOf returns -1). -/
def Registry.removeObstacle (r : Registry) (o : Entry) : Registry :=
  let r1 := r.setMesh o.meshId (fun m => { m with active := false, z := 0 })
  { r1 with obstacles := r1.obstacles.erase o }

/-- ObstacleManager.canSpawnObstacle: true when the live list is empty or the
last (most recently pushed) obstacle has travelled at least
minObstacleDistance from the spawn coordinate. -/
def Registry.canSpawnObstacle (r : Registry) : Bool :=
  match r.obstacles.getLast? with
  | Option.none => true
  | Option.some last =>
      decide (r.minObstacleDistance ≤ |r.zOf last.meshId - r.spawnDistance|)

/-- ObstacleManager.getObstacleFromPool: first inactive pooled mesh of the
kind, or a freshly created one pushed onto that pool. -/
def Registry.getObstacleFromPool (r : Registry) (k : Kind) : PMesh × Registry :=
  match r.pool.find? (fun m => m.kind = k ∧ m.active = false) with
  | Option.some m => (m, r)
  | Option.none =>
      let m : PMesh := { id := r.nextId, kind := k, active := false, z := 0 }
      (m, { r with pool := r.pool ++ [m], nextId := r.nextId + 1 })

/-- ObstacleManager.spawnObstacle: none when spacing forbids it; otherwise
activate a pooled mesh of the kind at the spawn coordinate and push a live
entry, returning the mesh id. -/
def Registry.spawnObstacle (r : Registry) (k : Kind) (lane : Int) (now : Int) :
    Option Nat × Registry :=
  if r.canSpawnObstacle then
    let p := r.getObstacleFromPool k
    let r2 := p.2.setMesh p.1.id (fun m => { m with active := true, z := r.spawnDistance })
    let e : Entry := { meshId := p.1.id, type := k, lane := lane, spawnTime := now }
    (Option.some p.1.id, { r2 with obstacles := r2.obstacles ++ [e] })
  else (Option.none, r)

/-- ObstacleManager.getActiveObstacles: live entries whose mesh is active. -/
def Registry.getActiveObstacles (r : Registry) : List Entry :=
  r.obstacles.filter (fun o => r.activeOf o.meshId)

/-- One visit of the forEach of ObstacleManager.reset at index k: forEach
walks indices 0 .. initial length - 1 of the array that removeObstacle is
splicing, reading the current element at k when one exists and skipping the
index otherwise. -/
def Registry.resetGo (fuel : Nat) (k : Nat) (r : Registry) : Registry :=
  match fuel with
  | 0 => r
  | Nat.succ fuel =>
      match r.obstacles.get? k with
      | Option.none => Registry.resetGo fuel (k + 1) r
      | Option.some o => Registry.resetGo fuel (k + 1) (r.removeObstacle o)

/-- ObstacleManager.reset: forEach removeObstacle over the live list (which
removeObstacle splices concurrently), then assign the empty list. -/
def Registry.reset (r : Registry) : Registry :=
  let r1 := Registry.resetGo r.obstacles.length 0 r
  { r1 with obstacles := [] }

/-- One visit of the filter of ObstacleManager.update at index k: inactive
entries are dropped, active ones advance by speed, and entries past the
despawn distance are removed (the splice of removeObstacle shifts the array
under the filter, so the index walk reads the current array). -/
def Registry.updateGo (speed : ℚ) (fuel : Nat) (k : Nat) (r : Registry)
    (kept : List Entry) : Registry × List Entry :=
  match fuel with
  | 0 => (r, kept.reverse)
  | Nat.succ fuel =>
      match r.obstacles.get? k with
      | Option.none => Registry.updateGo speed fuel (k + 1) r kept
      | Option.some o =>
          if r.activeOf o.meshId then
            let r1 := r.setMesh o.meshId (fun m => { m with z := m.z + speed })
            if r1.despawnDistance < r1.zOf o.meshId then
              Registry.updateGo speed fuel (k + 1) (r1.removeObstacle o) kept
            else
              Registry.updateGo speed fuel (k + 1) r1 (o :: kept)
          else
            Registry.updateGo speed fuel (k + 1) r kept

/-- ObstacleManager.update: advance and despawn through the filter walk, then
assign the filtered list to this.obstacles. -/
def Registry.update (r : Registry) (speed : ℚ) : Registry :=
  let p := Registry.updateGo speed r.obstacles.length 0 r []
  { p.1 with obstacles := p.2 }

/-- ObstacleManager.initializePool: 15 pre-created meshes per kind.  The i-th
round pushes one rock, one paper and one scissors mesh; ids are assigned in
creation order, so within each kind the store order is the pool order. -/
def initPoolGo : Nat → List PMesh
  | 0 => []
  | Nat.succ n =>
      initPoolGo n ++
        [ { id := 3 * n, kind := Kind.rock, active := false, z := 0 },
          { id := 3 * n + 1, kind := Kind.paper, active := false, z := 0 },
          { id := 3 * n + 2, kind := Kind.scissors, active := false, z := 0 } ]

/-- A freshly constructed ObstacleManager: initialized pool, empty live list,
spawnDistance -15, despawnDistance 8, minObstacleDistance 8. -/
def mkRegistry : Registry :=
  { pool := initPoolGo 15
    obstacles := []
    nextId := 45
    spawnDistance := -15
    despawnDistance := 8
    minObstacleDistance := 8 }

/-- Notifications fired through the engine callbacks: onGameOverCallback
with (score, maxCombo), onScoreUpdateCallback with (score, speed), and
onComboUpdateCallback with (combo, maxCombo). -/
inductive GEvent
  | gameOverNote (score : ℚ) (maxCombo : Nat)
  | scoreNote (score : ℚ) (speed : ℚ)
  | comboNote (combo : Nat) (maxCombo : Nat)
deriving DecidableEq

/-- GameEngine session state: isRunning, score, combo, maxCombo, the speed
multiplier recomputed each tick, the reconciled playerGesture and the
obstacle manager. -/
structure Engine where
  isRunning : Bool
  score : ℚ
  combo : Nat
  maxCombo : Nat
  speed : ℚ
  playerGesture : Gesture
  reg : Registry
deriving DecidableEq

/-- A freshly constructed GameEngine: not running, zero score and combos,
speed 1.0, playerGesture none. -/
def mkEngine : Engine :=
  { isRunning := false
    score := 0
    combo := 0
    maxCombo := 0
    speed := 1
    playerGesture := Gesture.gnone
    reg := mkRegistry }

/-- GameEngine.startGame: set running, zero the counters, reset speed and
playerGesture, reset the obstacle manager, and emit the initial score and
combo notifications. -/
def Engine.startGame (e : Engine) : Engine × List GEvent :=
  let e1 : Engine :=
    { e with
      isRunning := true
      score := 0
      combo := 0
      maxCombo := 0
      speed := 1
      playerGesture := Gesture.gnone
      reg := e.reg.reset }
  (e1, [GEvent.scoreNote 0 1, GEvent.comboNote 0 0])

/-- GameEngine.setPlayerGesture: unknown is sanitized to none; a none input
defaults an unset playerGesture to rock and otherwise keeps the held
gesture; a concrete input is a no-op when equal to the held gesture and
replaces it otherwise. -/
def Engine.setPlayerGesture (e : Engine) (raw : Gesture) : Engine :=
  let g := if raw = Gesture.unknown then Gesture.gnone else raw
  if g = Gesture.gnone then
    if e.playerGesture = Gesture.gnone then
      if e.playerGesture ≠ Gesture.rock then { e with playerGesture := Gesture.rock }
      else e
    else e
  else
    if e.playerGesture = g then e
    else { e with playerGesture := g }

/-- GameEngine.gameOver: clear isRunning, zero the combo, and fire the game
over callback with the final score and maxCombo.  The source only warns when
already stopped; the early return is commented out, so the body runs
unconditionally. -/
def Engine.gameOver (e : Engine) : Engine × List GEvent :=
  ({ e with isRunning := false, combo := 0 },
   [GEvent.gameOverNote e.score e.maxCombo])

/-- GameEngine.handleCollision: a none gesture loses; the required gesture
wins basePoints 10 plus floor(speed * 5) plus combo * 2 points, increments
the combo, raises maxCombo and removes the obstacle; the obstacle kind
itself ties, deducting 10 * speed and, when the score turned negative,
ending the game before the obstacle is removed, otherwise zeroing the combo
and removing the obstacle; any other gesture loses. -/
def Engine.handleCollision (e : Engine) (o : Entry) : Engine × List GEvent :=
  let required := getRequiredGesture o.type
  if e.playerGesture = Gesture.gnone then e.gameOver
  else if e.playerGesture = required then
    let points : Int := 10 + ⌊e.speed * 5⌋ + (e.combo : Int) * 2
    let e1 : Engine :=
      { e with
        score := e.score + (points : ℚ)
        combo := e.combo + 1
        maxCombo := max e.maxCombo (e.combo + 1)
        reg := e.reg.removeObstacle o }
    (e1, [GEvent.scoreNote e1.score e1.speed, GEvent.comboNote e1.combo e1.maxCombo])
  else if e.playerGesture = kindGesture o.type then
    let e1 : Engine := { e with score := e.score - 10 * e.speed }
    if e1.score < 0 then
      let p := e1.gameOver
      (p.1, GEvent.scoreNote e1.score e1.speed :: p.2)
    else
      let e2 : Engine := { e1 with combo := 0, reg := e1.reg.removeObstacle o }
      (e2, [GEvent.scoreNote e1.score e1.speed, GEvent.comboNote 0 e2.maxCombo])
  else e.gameOver

/-- Per-tick inputs that the source draws from the environment: whether
Date.now() reached nextSpawnTime, the randomly selected kind handed to
spawnObstacle (lane is forced to 0 in the source), the current timestamp,
and the per-obstacle bounding-box overlap test evaluated on the rendered
world transforms. -/
structure TickInput where
  doSpawn : Bool
  spawnType : Kind
  now : Int
  hit : Entry → Bool

/-- The collision loop of GameEngine.update over getActiveObstacles: the
first overlapping obstacle is handled and breaks the loop; otherwise an
obstacle past z = 5 ends the game and breaks the loop. -/
def collideLoop (e : Engine) (hit : Entry → Bool) : List Entry → Engine × List GEvent
  | [] => (e, [])
  | o :: rest =>
      if hit o then e.handleCollision o
      else if (5 : ℚ) < e.reg.zOf o.meshId then e.gameOver
      else collideLoop e hit rest

/-- GameEngine.update: a stopped engine returns immediately; otherwise the
speed multiplier is recomputed as min(1 + score * 0.05, 2.5), obstacles
advance by baseSpeed 0.03 times the multiplier, a spawn may fire, and the
collision loop runs over the active obstacles. -/
def Engine.update (e : Engine) (inp : TickInput) : Engine × List GEvent :=
  if e.isRunning then
    let speed := min (1 + e.score * (1 / 20)) (5 / 2)
    let e1 : Engine := { e with speed := speed, reg := e.reg.update ((3 / 100) * speed) }
    let e2 : Engine :=
      if inp.doSpawn then
        { e1 with reg := (e1.reg.spawnObstacle inp.spawnType 0 inp.now).2 }
      else e1
    collideLoop e2 inp.hit e2.reg.getActiveObstacles
  else (e, [])

/-- Gesture events are folded into the engine in arrival order. -/
def processGestures (e : Engine) (l : List Gesture) : Engine :=
  l.foldl Engine.setPlayerGesture e

/-- Predicate picking the game-over notifications out of an event list. -/
def isGameOverNote : GEvent → Bool
  | GEvent.gameOverNote _ _ => true
  | _ => false

/-- The winning gesture is never the none gesture. -/
lemma required_ne_gnone (k : Kind) : getRequiredGesture k ≠ Gesture.gnone := by
  cases k <;> simp [getRequiredGesture]

/-- The obstacle kind read as a gesture is never the none gesture. -/
lemma kind_ne_gnone (k : Kind) : kindGesture k ≠ Gesture.gnone := by
  cases k <;> simp [kindGesture]

/-- The winning gesture always differs from the obstacle kind. -/
lemma required_ne_kind (k : Kind) : getRequiredGesture k ≠ kindGesture k := by
  cases k <;> simp [getRequiredGesture, kindGesture]

/-- Equation for the win branch of handleCollision. -/
lemma handleCollision_win_eq (e : Engine) (o : Entry)
    (hg : e.playerGesture = getRequiredGesture o.type) :
    e.handleCollision o =
      ({ e with
          score := e.score + ((10 + ⌊e.speed * 5⌋ + (e.combo : Int) * 2 : Int) : ℚ)
          combo := e.combo + 1
          maxCombo := max e.maxCombo (e.combo + 1)
          reg := e.reg.removeObstacle o },
       [GEvent.scoreNote (e.score + ((10 + ⌊e.speed * 5⌋ + (e.combo : Int) * 2 : Int) : ℚ)) e.speed,
        GEvent.comboNote (e.combo + 1) (max e.maxCombo (e.combo + 1))]) := by
  simp [Engine.handleCollision, hg, required_ne_gnone]

/-- Equation for the tie branch of handleCollision: the penalty is applied
first; a negative result ends the game before the obstacle is removed, a
non-negative result zeroes the combo and removes the obstacle. -/
lemma handleCollision_tie_eq (e : Engine) (o : Entry)
    (hg : e.playerGesture = kindGesture o.type) :
    e.handleCollision o =
      if e.score - 10 * e.speed < 0 then
        ({ e with score := e.score - 10 * e.speed, isRunning := false, combo := 0 },
         [GEvent.scoreNote (e.score - 10 * e.speed) e.speed,
          GEvent.gameOverNote (e.score - 10 * e.speed) e.maxCombo])
      else
        ({ e with score := e.score - 10 * e.speed, combo := 0, reg := e.reg.removeObstacle o },
         [GEvent.scoreNote (e.score - 10 * e.speed) e.speed,
          GEvent.comboNote 0 e.maxCombo]) := by
  have h1 : kindGesture o.type ≠ getRequiredGesture o.type :=
    fun h => required_ne_kind o.type h.symm
  simp [Engine.handleCollision, hg, kind_ne_gnone, h1, Engine.gameOver]

/-- Equation for the loss branches of handleCollision: a gesture that is
neither the required one nor the obstacle kind (the none gesture included)
just runs gameOver. -/
lemma handleCollision_loss_eq (e : Engine) (o : Entry)
    (h1 : e.playerGesture ≠ getRequiredGesture o.type)
    (h2 : e.playerGesture ≠ kindGesture o.type) :
    e.handleCollision o =
      ({ e with isRunning := false, combo := 0 },
       [GEvent.gameOverNote e.score e.maxCombo]) := by
  by_cases hn : e.playerGesture = Gesture.gnone
  · simp [Engine.handleCollision, hn, Engine.gameOver]
  · simp [Engine.handleCollision, hn, h1, h2, Engine.gameOver]

/-- setPlayerGesture never changes the score. -/
lemma score_setPlayerGesture (e : Engine) (g : Gesture) :
    (e.setPlayerGesture g).score = e.score := by
  simp only [Engine.setPlayerGesture]
  repeat' split
  all_goals rfl

/-- C4: getRequiredGesture is the fixed-point-free 3-cycle Rock to Paper to
Scissors to Rock, and for every obstacle kind exactly one gesture wins
against it, namely getRequiredGesture of that kind. -/
theorem C4_requiredGesture_cycle :
    getRequiredGesture Kind.rock = Gesture.paper ∧
    getRequiredGesture Kind.paper = Gesture.scissors ∧
    getRequiredGesture Kind.scissors = Gesture.rock ∧
    (∀ k : Kind, getRequiredGesture k ≠ kindGesture k) ∧
    (∀ (k : Kind) (g : Gesture), resolveOutcome g k = Outcome.win ↔ g = getRequiredGesture k) := by
  refine ⟨rfl, rfl, rfl, required_ne_kind, ?_⟩
  intro k g
  cases k <;> cases g <;>
    simp [resolveOutcome, getRequiredGesture, kindGesture]

/-- Witness for C4 at the concrete kind Rock and gesture Paper. -/
theorem C4_witness :
    getRequiredGesture Kind.rock ≠ kindGesture Kind.rock ∧
    (resolveOutcome Gesture.paper Kind.rock = Outcome.win ↔
      Gesture.paper = getRequiredGesture Kind.rock) :=
  ⟨C4_requiredGesture_cycle.2.2.2.1 Kind.rock,
   C4_requiredGesture_cycle.2.2.2.2 Kind.rock Gesture.paper⟩

/-- A live rock obstacle entry as pushed by the first spawn after start. -/
def oRock : Entry := { meshId := 0, type := Kind.rock, lane := 0, spawnTime := 0 }

/-- The session state right after startGame on a fresh engine. -/
def eStart : Engine := (mkEngine.startGame).1

/-- C2: a collision resolved while Running with the required gesture adds
exactly 10 plus floor(speed * 5) plus combo * 2 points, increments the
combo, raises maxCombo to the maximum of itself and the new combo, and
removes the collided obstacle from the registry; in particular, from the
start state (score 0, combo 0, speed 1) a Win yields score 15 and combo 1. -/
theorem C2_win_scoring :
    (∀ (e : Engine) (o : Entry), e.isRunning = true →
      e.playerGesture = getRequiredGesture o.type →
      (e.handleCollision o).1 =
        { e with
            score := e.score + ((10 + ⌊e.speed * 5⌋ + (e.combo : Int) * 2 : Int) : ℚ)
            combo := e.combo + 1
            maxCombo := max e.maxCombo (e.combo + 1)
            reg := e.reg.removeObstacle o }) ∧
    ((eStart.setPlayerGesture Gesture.paper).handleCollision oRock).1.score = 15 ∧
    ((eStart.setPlayerGesture Gesture.paper).handleCollision oRock).1.combo = 1 := by
  refine ⟨?_, ?_, ?_⟩
  · intro e o _ hg
    rw [handleCollision_win_eq e o hg]
  · simp [eStart, mkEngine, mkRegistry, initPoolGo, Engine.startGame, Engine.setPlayerGesture,
      Engine.handleCollision, Engine.gameOver, Registry.reset, Registry.resetGo,
      Registry.removeObstacle, Registry.setMesh, Registry.mesh?, Registry.zOf,
      Registry.activeOf, getRequiredGesture, kindGesture, oRock, List.find?]
  · simp [eStart, mkEngine, mkRegistry, initPoolGo, Engine.startGame, Engine.setPlayerGesture,
      Engine.handleCollision, Engine.gameOver, Registry.reset, Registry.resetGo,
      Registry.removeObstacle, Registry.setMesh, Registry.mesh?, Registry.zOf,
      Registry.activeOf, getRequiredGesture, kindGesture, oRock, List.find?]

/-- Witness for C2: the win from the start state scores 15 points. -/
theorem C2_witness :
    ((eStart.setPlayerGesture Gesture.paper).handleCollision oRock).1 =
      { (eStart.setPlayerGesture Gesture.paper) with
          score := (eStart.setPlayerGesture Gesture.paper).score +
            ((10 + ⌊(eStart.setPlayerGesture Gesture.paper).speed * 5⌋ +
              ((eStart.setPlayerGesture Gesture.paper).combo : Int) * 2 : Int) : ℚ)
          combo := (eStart.setPlayerGesture Gesture.paper).combo + 1
          maxCombo := max (eStart.setPlayerGesture Gesture.paper).maxCombo
            ((eStart.setPlayerGesture Gesture.paper).combo + 1)
          reg := (eStart.setPlayerGesture Gesture.paper).reg.removeObstacle oRock } :=
  C2_win_scoring.1 (eStart.setPlayerGesture Gesture.paper) oRock
    (by simp [eStart, mkEngine, Engine.startGame, Engine.setPlayerGesture])
    (by simp [eStart, mkEngine, Engine.startGame, Engine.setPlayerGesture, oRock,
      getRequiredGesture])

/-- C3: a collision resolved while Running with a gesture that is neither
the required gesture nor the obstacle kind (the none gesture included) runs
gameOver immediately: the session stops with the score untouched, whatever
its sign. -/
theorem C3_loss_game_over (e : Engine) (o : Entry)
    (_hrun : e.isRunning = true)
    (h1 : e.playerGesture ≠ getRequiredGesture o.type)
    (h2 : e.playerGesture ≠ kindGesture o.type) :
    e.handleCollision o =
      ({ e with isRunning := false, combo := 0 },
       [GEvent.gameOverNote e.score e.maxCombo]) :=
  handleCollision_loss_eq e o h1 h2

/-- Witness for C3: scissors against a rock obstacle from the start state. -/
theorem C3_witness :
    (eStart.setPlayerGesture Gesture.scissors).handleCollision oRock =
      ({ (eStart.setPlayerGesture Gesture.scissors) with isRunning := false, combo := 0 },
       [GEvent.gameOverNote (eStart.setPlayerGesture Gesture.scissors).score
          (eStart.setPlayerGesture Gesture.scissors).maxCombo]) :=
  C3_loss_game_over (eStart.setPlayerGesture Gesture.scissors) oRock
    (by simp [eStart, mkEngine, Engine.startGame, Engine.setPlayerGesture])
    (by simp [eStart, mkEngine, Engine.startGame, Engine.setPlayerGesture, oRock,
      getRequiredGesture])
    (by simp [eStart, mkEngine, Engine.startGame, Engine.setPlayerGesture, oRock,
      kindGesture])

/-- A session that just started, whose player holds rock, with a live rock
obstacle spawned: the state in which a collision resolves as a Tie. -/
def eTiePre : Engine :=
  { (eStart.setPlayerGesture Gesture.rock) with
      reg := ((eStart.setPlayerGesture Gesture.rock).reg.spawnObstacle Kind.rock 0 0).2 }

/-- C1 counterexample: the Tie from the start state does subtract the
penalty (score -10) and does transition to Over, but it does not remove the
collided obstacle from the registry: the source returns from handleCollision
right after gameOver, before reaching removeObstacle, so the live list still
holds the obstacle. -/
theorem C1_counterexample :
    eTiePre.isRunning = true ∧
    eTiePre.playerGesture = kindGesture oRock.type ∧
    oRock ∈ eTiePre.reg.obstacles ∧
    (eTiePre.handleCollision oRock).1.score = -10 ∧
    (eTiePre.handleCollision oRock).1.isRunning = false ∧
    (eTiePre.handleCollision oRock).1.reg.obstacles = [oRock] := by
  refine ⟨?_, ?_, ?_, ?_, ?_, ?_⟩ <;>
  · simp [eTiePre, eStart, mkEngine, mkRegistry, initPoolGo, Engine.startGame,
      Engine.setPlayerGesture, Engine.handleCollision, Engine.gameOver,
      Registry.reset, Registry.resetGo, Registry.spawnObstacle, Registry.canSpawnObstacle,
      Registry.getObstacleFromPool, Registry.removeObstacle, Registry.setMesh,
      Registry.mesh?, Registry.zOf, Registry.activeOf, getRequiredGesture, kindGesture,
      oRock, List.find?]
    try norm_num

/-- C1 amended: a Tie resolved while Running subtracts 10 times the speed
multiplier from the score; when the resulting score is negative the session
transitions to Over (combo zeroed by gameOver) with the collided obstacle
left in the registry, and only otherwise is the combo reset and the obstacle
removed; in particular, from the start state a Tie yields score -10 and the
session transitions to Over. -/
theorem C1_tie_penalty :
    (∀ (e : Engine) (o : Entry), e.isRunning = true →
      e.playerGesture = kindGesture o.type →
      (e.score - 10 * e.speed < 0 →
        (e.handleCollision o).1 =
          { e with score := e.score - 10 * e.speed, isRunning := false, combo := 0 }) ∧
      (0 ≤ e.score - 10 * e.speed →
        (e.handleCollision o).1 =
          { e with
              score := e.score - 10 * e.speed
              combo := 0
              reg := e.reg.removeObstacle o })) ∧
    (eTiePre.handleCollision oRock).1.score = -10 ∧
    (eTiePre.handleCollision oRock).1.isRunning = false := by
  refine ⟨?_, ?_, ?_⟩
  · intro e o _ hg
    constructor
    · intro hneg
      rw [handleCollision_tie_eq e o hg, if_pos hneg]
    · intro hpos
      rw [handleCollision_tie_eq e o hg, if_neg (not_lt.mpr hpos)]
  · simp [eTiePre, eStart, mkEngine, mkRegistry, initPoolGo, Engine.startGame,
      Engine.setPlayerGesture, Engine.handleCollision, Engine.gameOver,
      Registry.reset, Registry.resetGo, Registry.spawnObstacle, Registry.canSpawnObstacle,
      Registry.getObstacleFromPool, Registry.removeObstacle, Registry.setMesh,
      Registry.mesh?, Registry.zOf, Registry.activeOf, getRequiredGesture, kindGesture,
      oRock, List.find?]
    try norm_num
  · simp [eTiePre, eStart, mkEngine, mkRegistry, initPoolGo, Engine.startGame,
      Engine.setPlayerGesture, Engine.handleCollision, Engine.gameOver,
      Registry.reset, Registry.resetGo, Registry.spawnObstacle, Registry.canSpawnObstacle,
      Registry.getObstacleFromPool, Registry.removeObstacle, Registry.setMesh,
      Registry.mesh?, Registry.zOf, Registry.activeOf, getRequiredGesture, kindGesture,
      oRock, List.find?]
    try norm_num

/-- Witness for C1 amended at the start-state tie. -/
theorem C1_witness :
    (eTiePre.handleCollision oRock).1 =
      { eTiePre with
          score := eTiePre.score - 10 * eTiePre.speed
          isRunning := false
          combo := 0 } :=
  (C1_tie_penalty.1 eTiePre oRock
      (by simp [eTiePre, eStart, mkEngine, Engine.startGame, Engine.setPlayerGesture])
      (by simp [eTiePre, eStart, mkEngine, Engine.startGame, Engine.setPlayerGesture,
        oRock, kindGesture])).1
    (by
      simp [eTiePre, eStart, mkEngine, Engine.startGame, Engine.setPlayerGesture]
      try norm_num)

/-- The sanitize step makes an unknown event behave as a none event. -/
lemma setPlayerGesture_unknown (e : Engine) :
    e.setPlayerGesture Gesture.unknown = e.setPlayerGesture Gesture.gnone := by
  simp [Engine.setPlayerGesture]

/-- A none event keeps a held valid gesture. -/
lemma setPlayerGesture_none_keep (e : Engine) (h : e.playerGesture ≠ Gesture.gnone) :
    e.setPlayerGesture Gesture.gnone = e := by
  simp [Engine.setPlayerGesture, h]

/-- A none event with no held gesture defaults playerGesture to rock. -/
lemma setPlayerGesture_none_default (e : Engine) (h : e.playerGesture = Gesture.gnone) :
    e.setPlayerGesture Gesture.gnone = { e with playerGesture := Gesture.rock } := by
  simp [Engine.setPlayerGesture, h]

/-- A run of none and unknown events leaves an engine holding a valid
gesture unchanged. -/
lemma processGestures_invalid_keep (l : List Gesture) :
    ∀ e : Engine, (∀ g ∈ l, g = Gesture.gnone ∨ g = Gesture.unknown) →
      e.playerGesture ≠ Gesture.gnone → processGestures e l = e := by
  induction l with
  | nil => intro e _ _; rfl
  | cons g l ih =>
      intro e hmem hval
      have hg : g = Gesture.gnone ∨ g = Gesture.unknown := hmem g (List.mem_cons_self g l)
      have hstep : e.setPlayerGesture g = e := by
        rcases hg with hg | hg <;> subst hg
        · exact setPlayerGesture_none_keep e hval
        · rw [setPlayerGesture_unknown]; exact setPlayerGesture_none_keep e hval
      show processGestures (e.setPlayerGesture g) l = e
      rw [hstep]
      exact ih e (fun x hx => hmem x (List.mem_cons_of_mem g hx)) hval

/-- C5: unknown events are normalized to none; a repeated concrete gesture
is a no-op while a differing one replaces the intent; a none event keeps a
held valid gesture and defaults an unset one to rock; in particular, a
session that has received only no-gesture frames (at least one, as the
recognizer reports on its own cadence) holds intent rock. -/
theorem C5_gesture_reconciliation :
    (∀ e : Engine, e.setPlayerGesture Gesture.unknown = e.setPlayerGesture Gesture.gnone) ∧
    (∀ (e : Engine) (g : Gesture),
      (g = Gesture.rock ∨ g = Gesture.paper ∨ g = Gesture.scissors) →
      (e.playerGesture = g → e.setPlayerGesture g = e) ∧
      (e.playerGesture ≠ g → e.setPlayerGesture g = { e with playerGesture := g })) ∧
    (∀ e : Engine, e.playerGesture ≠ Gesture.gnone →
      e.setPlayerGesture Gesture.gnone = e) ∧
    (∀ e : Engine, e.playerGesture = Gesture.gnone →
      e.setPlayerGesture Gesture.gnone = { e with playerGesture := Gesture.rock }) ∧
    (∀ (e : Engine) (l : List Gesture), l ≠ [] →
      (∀ g ∈ l, g = Gesture.gnone ∨ g = Gesture.unknown) →
      (processGestures (e.startGame).1 l).playerGesture = Gesture.rock) := by
  refine ⟨setPlayerGesture_unknown, ?_, setPlayerGesture_none_keep,
    setPlayerGesture_none_default, ?_⟩
  · intro e g hg
    constructor
    · intro hsame
      rcases hg with hg | hg | hg <;> subst hg <;> simp [Engine.setPlayerGesture, hsame]
    · intro hdiff
      rcases hg with hg | hg | hg <;> subst hg <;> simp [Engine.setPlayerGesture, hdiff]
  · intro e l hne hmem
    obtain ⟨g, l, rfl⟩ := List.exists_cons_of_ne_nil hne
    have hg : g = Gesture.gnone ∨ g = Gesture.unknown := hmem g (List.mem_cons_self g l)
    have hstart : (e.startGame).1.playerGesture = Gesture.gnone := rfl
    have hstep : (e.startGame).1.setPlayerGesture g =
        { (e.startGame).1 with playerGesture := Gesture.rock } := by
      rcases hg with hg | hg <;> subst hg
      · exact setPlayerGesture_none_default _ hstart
      · rw [setPlayerGesture_unknown]; exact setPlayerGesture_none_default _ hstart
    show (processGestures ((e.startGame).1.setPlayerGesture g) l).playerGesture = Gesture.rock
    rw [hstep, processGestures_invalid_keep l _
      (fun x hx => hmem x (List.mem_cons_of_mem g hx)) (by simp)]

/-- Witness for C5: a single no-hand frame after start yields intent rock. -/
theorem C5_witness :
    (processGestures (mkEngine.startGame).1 [Gesture.gnone]).playerGesture = Gesture.rock :=
  C5_gesture_reconciliation.2.2.2.2 mkEngine [Gesture.gnone] (by simp)
    (by intro g hg; simp only [List.mem_singleton] at hg; exact Or.inl hg)

/-- A registry with two live obstacles: a rock spawned at the spawn point,
advanced 8 units (so spacing permits a second spawn), then a paper spawned.
The rock mesh has id 0 and the paper mesh id 1. -/
def rBad : Registry :=
  (((mkRegistry.spawnObstacle Kind.rock 0 0).2.update 8).spawnObstacle Kind.paper 0 1).2

/-- C7, failing input: reset on a registry with two live obstacles clears
the live list and keeps the pool, but the forEach of reset iterates
this.obstacles while removeObstacle splices it, so the second obstacle is
skipped: its mesh keeps userData.active = true and is never returned to a
reusable state, contradicting the deactivate-all contract (and the source
comment Remove all active obstacles). -/
theorem C7_reset_skips_second_obstacle :
    rBad.obstacles.length = 2 ∧
    rBad.activeOf 0 = true ∧
    rBad.activeOf 1 = true ∧
    rBad.reset.obstacles = [] ∧
    rBad.reset.activeOf 0 = false ∧
    rBad.reset.activeOf 1 = true ∧
    rBad.reset.pool.length = mkRegistry.pool.length := by
  refine ⟨?_, ?_, ?_, ?_, ?_, ?_, ?_⟩ <;>
  · simp [rBad, mkRegistry, initPoolGo, Registry.reset, Registry.resetGo,
      Registry.update, Registry.updateGo, Registry.spawnObstacle,
      Registry.canSpawnObstacle, Registry.getObstacleFromPool, Registry.removeObstacle,
      Registry.setMesh, Registry.mesh?, Registry.zOf, Registry.activeOf,
      List.find?, List.erase]
    try norm_num
    try decide

/-- Session states reachable through the public engine operations: a fresh
start, asynchronous gesture events, simulation ticks, and restarts. -/
inductive Reaches : Engine → Prop
  | start : Reaches (mkEngine.startGame).1
  | gesture {e : Engine} (g : Gesture) : Reaches e → Reaches (e.setPlayerGesture g)
  | tick {e : Engine} (inp : TickInput) : Reaches e → Reaches (e.update inp).1
  | restart {e : Engine} : Reaches e → Reaches (e.startGame).1

/-- Tick input spawning a rock and reporting a bounding-box hit. -/
def inpRock : TickInput :=
  { doSpawn := true, spawnType := Kind.rock, now := 0, hit := fun _ => true }

/-- The session after start, a Win against a rock (score 15), then a Tie
against a rock at speed 1.75 (penalty 17.5). -/
def eBad : Engine :=
  (((((mkEngine.startGame).1.setPlayerGesture Gesture.paper).update inpRock).1.setPlayerGesture
      Gesture.rock).update inpRock).1

/-- Dyadic rationals: an integer divided by a power of two. -/
def IsDyadic (q : ℚ) : Prop := ∃ (m : ℤ) (k : ℕ), q = (m : ℚ) / 2 ^ k

/-- Integers are dyadic. -/
lemma isDyadic_intCast (n : ℤ) : IsDyadic (n : ℚ) :=
  ⟨n, 0, by norm_num⟩

/-- Dyadic rationals are closed under adding an integer. -/
lemma IsDyadic.add_int {q : ℚ} (h : IsDyadic q) (n : ℤ) : IsDyadic (q + (n : ℚ)) := by
  obtain ⟨m, k, rfl⟩ := h
  refine ⟨m + n * 2 ^ k, k, ?_⟩
  push_cast
  field_simp

/-- Dyadic rationals are closed under subtracting an integer. -/
lemma IsDyadic.sub_int {q : ℚ} (h : IsDyadic q) (n : ℤ) : IsDyadic (q - (n : ℚ)) := by
  have := h.add_int (-n)
  push_cast at this
  simpa [sub_eq_add_neg] using this

/-- Dyadic rationals are closed under halving and subtracting 10, the shape
of the unclamped tie penalty. -/
lemma IsDyadic.half_sub_ten {q : ℚ} (h : IsDyadic q) : IsDyadic (q / 2 - 10) := by
  obtain ⟨m, k, rfl⟩ := h
  refine ⟨m - 10 * 2 ^ (k + 1), k + 1, ?_⟩
  push_cast
  field_simp
  ring

/-- The score after handleCollision is the old score, the old score plus an
integer (win), or the old score minus 10 times the speed (tie). -/
lemma handleCollision_score (e : Engine) (o : Entry) :
    (e.handleCollision o).1.score = e.score ∨
    (∃ n : ℤ, (e.handleCollision o).1.score = e.score + (n : ℚ)) ∨
    (e.handleCollision o).1.score = e.score - 10 * e.speed := by
  by_cases h1 : e.playerGesture = getRequiredGesture o.type
  · exact Or.inr (Or.inl ⟨_, by rw [handleCollision_win_eq e o h1]⟩)
  · by_cases h2 : e.playerGesture = kindGesture o.type
    · refine Or.inr (Or.inr ?_)
      rw [handleCollision_tie_eq e o h2]
      split <;> rfl
    · exact Or.inl (by rw [handleCollision_loss_eq e o h1 h2])

/-- Along the collision loop with the tick speed formula in force, a dyadic
score stays dyadic. -/
lemma collideLoop_score_dyadic (hit : Entry → Bool) (L : List Entry) (e : Engine)
    (hsp : e.speed = min (1 + e.score * (1 / 20)) (5 / 2))
    (hd : IsDyadic e.score) :
    IsDyadic ((collideLoop e hit L).1.score) := by
  induction L with
  | nil => exact hd
  | cons o rest ih =>
      by_cases hh : hit o = true
      · simp only [collideLoop, hh, if_true]
        rcases handleCollision_score e o with h | ⟨n, h⟩ | h
        · rw [h]; exact hd
        · rw [h]; exact hd.add_int n
        · rw [h, hsp]
          rcases min_cases (1 + e.score * (1 / 20)) ((5 : ℚ) / 2) with ⟨hmin, _⟩ | ⟨hmin, _⟩
          · rw [hmin]
            have hshape : e.score - 10 * (1 + e.score * (1 / 20)) = e.score / 2 - 10 := by
              ring
            rw [hshape]
            exact hd.half_sub_ten
          · rw [hmin]
            have hshape : e.score - 10 * ((5 : ℚ) / 2) = e.score - ((25 : ℤ) : ℚ) := by
              norm_num
            rw [hshape]
            exact hd.sub_int 25
      · simp only [collideLoop, hh, if_false]
        by_cases hz : (5 : ℚ) < e.reg.zOf o.meshId
        · simp only [hz, if_true]
          exact hd
        · simp only [hz, if_false]
          exact ih

/-- A simulation tick keeps a dyadic score dyadic: wins add integers and the
tie penalty 10 * min(1 + score / 20, 5 / 2) is score / 2 + 10 or 25. -/
lemma update_score_dyadic (e : Engine) (inp : TickInput) (hd : IsDyadic e.score) :
    IsDyadic ((e.update inp).1.score) := by
  by_cases he : e.isRunning = true
  · unfold Engine.update
    rw [if_pos he]
    by_cases hs : inp.doSpawn = true <;> simp only [hs, if_true, if_false] <;>
      exact collideLoop_score_dyadic inp.hit _ _ rfl hd
  · unfold Engine.update
    rw [if_neg he]
    exact hd

/-- C6 amended: in every session state reachable from a fresh start by
gesture events, simulation ticks (hence any sequence of Win, Tie and Loss
outcomes) and restarts, the score is a dyadic rational m / 2 ^ k.  It is not
always an integer: the Tie penalty 10 * speed may be fractional. -/
theorem C6_score_dyadic (e : Engine) (h : Reaches e) : IsDyadic e.score := by
  induction h with
  | start =>
      have h0 : (mkEngine.startGame).1.score = ((0 : ℤ) : ℚ) := rfl
      rw [h0]
      exact isDyadic_intCast 0
  | gesture g _ ih =>
      rw [score_setPlayerGesture]
      exact ih
  | tick inp _ ih => exact update_score_dyadic _ inp ih
  | restart _ _ =>
      rw [show ∀ f : Engine, (f.startGame).1.score = ((0 : ℤ) : ℚ) from fun f => rfl]
      exact isDyadic_intCast 0

/-- Witness for C6 amended at the start state. -/
theorem C6_witness : IsDyadic ((mkEngine.startGame).1.score) :=
  C6_score_dyadic (mkEngine.startGame).1 Reaches.start

/-- C6 counterexample: after start, a Win against a rock (score 15) and a
Tie against a rock (speed 1.75, penalty 17.5), the reachable session state
holds score -5/2, which is no integer. -/
theorem C6_counterexample :
    Reaches eBad ∧ eBad.score = -(5 / 2 : ℚ) ∧ ¬∃ n : ℤ, eBad.score = (n : ℚ) := by
  have hsc : eBad.score = -(5 / 2 : ℚ) := by
    simp [eBad, mkEngine, mkRegistry, initPoolGo, Engine.startGame, Engine.setPlayerGesture,
      Engine.update, Engine.handleCollision, Engine.gameOver, collideLoop,
      Registry.reset, Registry.resetGo, Registry.update, Registry.updateGo,
      Registry.spawnObstacle, Registry.canSpawnObstacle, Registry.getObstacleFromPool,
      Registry.getActiveObstacles, Registry.removeObstacle, Registry.setMesh,
      Registry.mesh?, Registry.zOf, Registry.activeOf, getRequiredGesture, kindGesture,
      List.find?, List.filter, inpRock]
    try norm_num
  refine ⟨?_, hsc, ?_⟩
  · exact Reaches.tick inpRock (Reaches.gesture Gesture.rock
      (Reaches.tick inpRock (Reaches.gesture Gesture.paper Reaches.start)))
  · rintro ⟨n, hn⟩
    rw [hsc] at hn
    have h2 : (n : ℚ) * 2 = -5 := by rw [← hn]; norm_num
    have h3 : ((n * 2 : ℤ) : ℚ) = ((-5 : ℤ) : ℚ) := by push_cast; linarith
    have h4 : n * 2 = -5 := by exact_mod_cast h3
    omega

/-- The events of handleCollision from a running engine contain no game
over notification exactly when the result is still running, and exactly one
otherwise. -/
lemma handleCollision_count (e : Engine) (o : Entry) (h : e.isRunning = true) :
    ((e.handleCollision o).2.countP isGameOverNote) =
      if (e.handleCollision o).1.isRunning = true then 0 else 1 := by
  by_cases h1 : e.playerGesture = getRequiredGesture o.type
  · rw [handleCollision_win_eq e o h1]
    simp [isGameOverNote, h, List.countP_cons, List.countP_nil]
  · by_cases h2 : e.playerGesture = kindGesture o.type
    · rw [handleCollision_tie_eq e o h2]
      split
      · simp [isGameOverNote, List.countP_cons, List.countP_nil]
      · simp [isGameOverNote, h, List.countP_cons, List.countP_nil]
    · rw [handleCollision_loss_eq e o h1 h2]
      simp [isGameOverNote, List.countP_cons, List.countP_nil]

/-- The collision loop from a running engine emits no game over
notification exactly when it leaves the engine running, and exactly one
otherwise. -/
lemma collideLoop_count (hit : Entry → Bool) (L : List Entry) (e : Engine)
    (h : e.isRunning = true) :
    ((collideLoop e hit L).2.countP isGameOverNote) =
      if (collideLoop e hit L).1.isRunning = true then 0 else 1 := by
  induction L with
  | nil => simp [collideLoop, h, List.countP_nil]
  | cons o rest ih =>
      by_cases hh : hit o = true
      · simp only [collideLoop, hh, if_true]
        exact handleCollision_count e o h
      · simp only [collideLoop, hh, if_false]
        by_cases hz : (5 : ℚ) < e.reg.zOf o.meshId
        · simp only [hz, if_true]
          simp [Engine.gameOver, isGameOverNote, List.countP_cons, List.countP_nil]
        · simp only [hz, if_false]
          exact ih

/-- A running tick emits exactly one game over notification when it stops
the session and none when it leaves it running. -/
lemma update_count (e : Engine) (inp : TickInput) :
    ((e.update inp).2.countP isGameOverNote) =
      if e.isRunning = true ∧ (e.update inp).1.isRunning = false then 1 else 0 := by
  by_cases he : e.isRunning = true
  · have key : ∀ (e2 : Engine) (L : List Entry), e2.isRunning = true →
        ((collideLoop e2 inp.hit L).2.countP isGameOverNote) =
          if e.isRunning = true ∧ (collideLoop e2 inp.hit L).1.isRunning = false then 1
          else 0 := by
      intro e2 L h2
      rw [collideLoop_count inp.hit L e2 h2]
      by_cases hr : (collideLoop e2 inp.hit L).1.isRunning = true
      · simp [hr, he]
      · have hr' : (collideLoop e2 inp.hit L).1.isRunning = false := by simpa using hr
        simp [hr', he]
    unfold Engine.update
    rw [if_pos he]
    by_cases hs : inp.doSpawn = true <;> simp only [hs, if_true, if_false] <;>
      exact key _ _ he
  · have he' : e.isRunning = false := by simpa using he
    unfold Engine.update
    rw [if_neg (by simp [he'])]
    simp [he', List.countP_nil]

/-- C8: once isRunning is false a tick is a pure no-op, with no scoring,
spawning or collision processing and no notifications, until an explicit
start or restart; and every tick emits exactly one onGameOver notification
when it transitions the session from Running to Over, and none otherwise. -/
theorem C8_over_quiescent_single_game_over :
    (∀ (e : Engine) (inp : TickInput), e.isRunning = false → e.update inp = (e, [])) ∧
    (∀ (e : Engine) (inp : TickInput),
      ((e.update inp).2.countP isGameOverNote) =
        if e.isRunning = true ∧ (e.update inp).1.isRunning = false then 1 else 0) := by
  constructor
  · intro e inp h
    unfold Engine.update
    rw [if_neg (by simp [h])]
  · intro e inp
    exact update_count e inp

/-- Witness for C8: a tick on a fresh, not yet started engine is a no-op. -/
theorem C8_witness : mkEngine.update inpRock = (mkEngine, []) :=
  C8_over_quiescent_single_game_over.1 mkEngine inpRock rfl

/-- A mesh found by id lookup carries that id. -/
lemma mesh?_id {r : Registry} {j : Nat} {m : PMesh} (h : r.mesh? j = Option.some m) :
    m.id = j := by
  have := List.find?_some h
  simpa using this

/-- An id lookup that succeeds in the pool still succeeds, with the same
mesh, after the pool is extended on the right. -/
lemma mesh?_of_pool_eq {r r1 : Registry} {l : List PMesh} {j : Nat} {m : PMesh}
    (h : r1.pool = r.pool ++ l) (hm : r.mesh? j = Option.some m) :
    r1.mesh? j = Option.some m := by
  simp only [Registry.mesh?] at hm ⊢
  rw [h, List.find?_append, hm, Option.or_some]

/-- Mutating the mesh with id i rewrites an id lookup pointwise, provided
the mutation preserves ids. -/
lemma mesh?_setMesh (r : Registry) (i j : Nat) (f : PMesh → PMesh)
    (hf : ∀ m, (f m).id = m.id) :
    (r.setMesh i f).mesh? j =
      (r.mesh? j).map (fun m => if m.id = i then f m else m) := by
  simp only [Registry.setMesh, Registry.mesh?]
  rw [List.find?_map]
  have hp : ((fun m : PMesh => decide (m.id = j)) ∘ fun m => if m.id = i then f m else m) =
      (fun m : PMesh => decide (m.id = j)) := by
    funext m
    by_cases hmi : m.id = i <;> simp [Function.comp, hmi, hf]
  rw [hp]

/-- zOf is untouched by a mutation of a different mesh. -/
lemma zOf_setMesh_ne (r : Registry) (i j : Nat) (f : PMesh → PMesh)
    (hf : ∀ m, (f m).id = m.id) (hne : j ≠ i) :
    (r.setMesh i f).zOf j = r.zOf j := by
  simp only [Registry.zOf]
  rw [mesh?_setMesh r i j f hf]
  cases hm : r.mesh? j with
  | none => rfl
  | some m =>
      have hid : m.id = j := mesh?_id hm
      simp [hid, hne]

/-- activeOf is untouched by a mutation of a different mesh. -/
lemma activeOf_setMesh_ne (r : Registry) (i j : Nat) (f : PMesh → PMesh)
    (hf : ∀ m, (f m).id = m.id) (hne : j ≠ i) :
    (r.setMesh i f).activeOf j = r.activeOf j := by
  simp only [Registry.activeOf]
  rw [mesh?_setMesh r i j f hf]
  cases hm : r.mesh? j with
  | none => rfl
  | some m =>
      have hid : m.id = j := mesh?_id hm
      simp [hid, hne]

/-- canSpawnObstacle is false exactly when the most recently pushed live
obstacle is still within minObstacleDistance of the spawn coordinate. -/
lemma canSpawn_false_iff (r : Registry) :
    r.canSpawnObstacle = false ↔
      ∃ last, r.obstacles.getLast? = Option.some last ∧
        |r.zOf last.meshId - r.spawnDistance| < r.minObstacleDistance := by
  unfold Registry.canSpawnObstacle
  cases hl : r.obstacles.getLast? with
  | none => simp
  | some last => simp [not_le]

/-- A permitted spawn returns the id of the pooled mesh it activates. -/
lemma spawn_isSome (r : Registry) (k : Kind) (lane now : Int)
    (hc : r.canSpawnObstacle = true) :
    (r.spawnObstacle k lane now).1 = Option.some (r.getObstacleFromPool k).1.id := by
  unfold Registry.spawnObstacle
  rw [hc]
  rfl

/-- A forbidden spawn returns none and leaves the registry unchanged. -/
lemma spawn_isNone (r : Registry) (k : Kind) (lane now : Int)
    (hc : r.canSpawnObstacle = false) :
    r.spawnObstacle k lane now = (Option.none, r) := by
  unfold Registry.spawnObstacle
  rw [hc]
  rfl

/-- The mesh store after a permitted spawn is the store of getObstacleFromPool
with the selected mesh activated at the spawn coordinate (pushing the live
entry does not touch the store, so zOf agrees). -/
lemma spawn_zOf (r : Registry) (k : Kind) (lane now : Int)
    (hc : r.canSpawnObstacle = true) (j : Nat) :
    (r.spawnObstacle k lane now).2.zOf j =
      ((r.getObstacleFromPool k).2.setMesh (r.getObstacleFromPool k).1.id
        (fun m => { m with active := true, z := r.spawnDistance })).zOf j := by
  unfold Registry.spawnObstacle
  rw [hc]
  rfl

/-- getObstacleFromPool either returns an inactive pooled mesh with the
registry unchanged, or a fresh mesh pushed onto the pool. -/
lemma getObstacleFromPool_spec (r : Registry) (k : Kind) :
    ((r.getObstacleFromPool k).1 ∈ r.pool ∧ (r.getObstacleFromPool k).1.active = false ∧
      (r.getObstacleFromPool k).2 = r) ∨
    ((r.getObstacleFromPool k).1 = { id := r.nextId, kind := k, active := false, z := 0 } ∧
      (r.getObstacleFromPool k).2 =
        { r with
            pool := r.pool ++ [(r.getObstacleFromPool k).1]
            nextId := r.nextId + 1 } ∧
      r.pool.find? (fun m => m.kind = k ∧ m.active = false) = Option.none) := by
  unfold Registry.getObstacleFromPool
  split
  next m hf =>
      left
      have h1 := List.mem_of_find?_eq_some hf
      have h2 := List.find?_some hf
      simp only [decide_eq_true_eq] at h2
      exact ⟨h1, by simp [h2.2], rfl⟩
  next hf => right; exact ⟨rfl, rfl, hf⟩

/-- C9: spawnObstacle returns none exactly when the live list is non-empty
and its most recently spawned obstacle is still within minObstacleDistance
of the spawn coordinate; and when a spawn with a live predecessor succeeds
(in a well-formed registry: distinct pool ids below nextId, predecessor mesh
active), the new obstacle sits at the spawn coordinate, the predecessor
keeps its position, and the travel-axis distance between the two obstacles
at the moment of the spawn is at least minObstacleDistance. -/
theorem C9_spawn_spacing :
    (∀ (r : Registry) (k : Kind) (lane now : Int),
      (r.spawnObstacle k lane now).1 = Option.none ↔
        ∃ last, r.obstacles.getLast? = Option.some last ∧
          |r.zOf last.meshId - r.spawnDistance| < r.minObstacleDistance) ∧
    (∀ (r : Registry) (k : Kind) (lane now : Int) (prev : Entry) (i : Nat),
      (r.pool.map PMesh.id).Nodup →
      (∀ m ∈ r.pool, m.id < r.nextId) →
      r.obstacles.getLast? = Option.some prev →
      r.activeOf prev.meshId = true →
      (r.spawnObstacle k lane now).1 = Option.some i →
      (r.spawnObstacle k lane now).2.zOf i = r.spawnDistance ∧
      (r.spawnObstacle k lane now).2.zOf prev.meshId = r.zOf prev.meshId ∧
      r.minObstacleDistance ≤
        |(r.spawnObstacle k lane now).2.zOf prev.meshId -
          (r.spawnObstacle k lane now).2.zOf i|) := by
  constructor
  · intro r k lane now
    constructor
    · intro h
      rw [← canSpawn_false_iff]
      by_cases hc : r.canSpawnObstacle = true
      · rw [spawn_isSome r k lane now hc] at h
        exact absurd h (by simp)
      · simpa using hc
    · intro hex
      have hc : r.canSpawnObstacle = false := (canSpawn_false_iff r).mpr hex
      rw [spawn_isNone r k lane now hc]
  · intro r k lane now prev i hnd hlt hprev hact hsome
    have hc : r.canSpawnObstacle = true := by
      by_cases hc0 : r.canSpawnObstacle = true
      · exact hc0
      · have hc1 : r.canSpawnObstacle = false := by simpa using hc0
        rw [spawn_isNone r k lane now hc1] at hsome
        exact absurd hsome (by simp)
    have hineq : r.minObstacleDistance ≤ |r.zOf prev.meshId - r.spawnDistance| := by
      unfold Registry.canSpawnObstacle at hc
      rw [hprev] at hc
      exact of_decide_eq_true hc
    obtain ⟨mm, hmmEq, hmmAct⟩ :
        ∃ mm, r.mesh? prev.meshId = Option.some mm ∧ mm.active = true := by
      unfold Registry.activeOf at hact
      cases hm : r.mesh? prev.meshId with
      | none => rw [hm] at hact; simp at hact
      | some mm => rw [hm] at hact; exact ⟨mm, rfl, by simpa using hact⟩
    have hmmMem : mm ∈ r.pool := List.mem_of_find?_eq_some hmmEq
    have hmmId : mm.id = prev.meshId := mesh?_id hmmEq
    have hi : (r.getObstacleFromPool k).1.id = i := by
      rw [spawn_isSome r k lane now hc] at hsome
      simpa using hsome
    have hzr : ∀ j, (r.spawnObstacle k lane now).2.zOf j =
        ((r.getObstacleFromPool k).2.setMesh i
          (fun m => { m with active := true, z := r.spawnDistance })).zOf j := by
      intro j
      rw [spawn_zOf r k lane now hc j, hi]
    have hfid : ∀ m : PMesh,
        ((fun mq : PMesh => { mq with active := true, z := r.spawnDistance }) m).id = m.id :=
      fun _ => rfl
    rcases getObstacleFromPool_spec r k with ⟨hmem, hinact, hr2⟩ | ⟨hm1, hr2, _⟩
    · -- a pooled inactive mesh is reused
      have hne : i ≠ prev.meshId := by
        intro heq
        have hideq : (r.getObstacleFromPool k).1.id = mm.id := by
          rw [hi, heq, hmmId]
        have : (r.getObstacleFromPool k).1 = mm :=
          List.inj_on_of_nodup_map hnd hmem hmmMem hideq
        rw [this] at hinact
        rw [hinact] at hmmAct
        exact absurd hmmAct (by simp)
      obtain ⟨m0, hm0⟩ : ∃ m0, r.mesh? i = Option.some m0 := by
        have hs : (r.mesh? i).isSome = true := by
          simp only [Registry.mesh?]
          rw [List.find?_isSome]
          exact ⟨(r.getObstacleFromPool k).1, hmem, by simp [hi]⟩
        exact Option.isSome_iff_exists.mp hs
      have hz1 : (r.spawnObstacle k lane now).2.zOf i = r.spawnDistance := by
        rw [hzr i, hr2]
        simp only [Registry.zOf]
        rw [mesh?_setMesh r i i _ hfid, hm0]
        simp [mesh?_id hm0]
      have hz2 : (r.spawnObstacle k lane now).2.zOf prev.meshId = r.zOf prev.meshId := by
        rw [hzr prev.meshId, hr2]
        exact zOf_setMesh_ne r i prev.meshId _ hfid (Ne.symm hne)
      refine ⟨hz1, hz2, ?_⟩
      rw [hz1, hz2]
      exact hineq
    · -- the pool grows by a fresh mesh
      have hiNext : i = r.nextId := by
        rw [← hi, hm1]
      have hne : i ≠ prev.meshId := by
        intro heq
        have : mm.id < r.nextId := hlt mm hmmMem
        rw [hmmId, ← heq, hiNext] at this
        exact lt_irrefl _ this
      have hpool : (r.getObstacleFromPool k).2.pool =
          r.pool ++ [(r.getObstacleFromPool k).1] := by
        rw [hr2]
      have hmesh2 : (r.getObstacleFromPool k).2.mesh? i =
          Option.some (r.getObstacleFromPool k).1 := by
        simp only [Registry.mesh?]
        rw [hpool, List.find?_append]
        have hnone : r.pool.find? (fun x => decide (x.id = i)) = Option.none := by
          rw [List.find?_eq_none]
          intro x hx
          have := hlt x hx
          simp only [decide_eq_true_eq]
          omega
        rw [hnone]
        simp [List.find?, hi]
      have hmeshPrev : (r.getObstacleFromPool k).2.mesh? prev.meshId =
          Option.some mm := mesh?_of_pool_eq hpool hmmEq
      have hz1 : (r.spawnObstacle k lane now).2.zOf i = r.spawnDistance := by
        rw [hzr i]
        simp only [Registry.zOf]
        rw [mesh?_setMesh _ i i _ hfid, hmesh2]
        simp [hi]
      have hz2 : (r.spawnObstacle k lane now).2.zOf prev.meshId = r.zOf prev.meshId := by
        rw [hzr prev.meshId]
        rw [zOf_setMesh_ne _ i prev.meshId _ hfid (Ne.symm hne)]
        simp only [Registry.zOf]
        rw [hmeshPrev, hmmEq]
      refine ⟨hz1, hz2, ?_⟩
      rw [hz1, hz2]
      exact hineq

/-- A registry whose rock obstacle has advanced 8 units from the spawn
point, so that a second spawn is permitted. -/
def rSpace : Registry := (mkRegistry.spawnObstacle Kind.rock 0 0).2.update 8

/-- Witness for C9: the paper spawn after the advanced rock lands at the
spawn coordinate, at least minObstacleDistance away from the rock. -/
theorem C9_witness :
    (rSpace.spawnObstacle Kind.paper 0 1).2.zOf 1 = rSpace.spawnDistance ∧
    (rSpace.spawnObstacle Kind.paper 0 1).2.zOf oRock.meshId = rSpace.zOf oRock.meshId ∧
    rSpace.minObstacleDistance ≤
      |(rSpace.spawnObstacle Kind.paper 0 1).2.zOf oRock.meshId -
        (rSpace.spawnObstacle Kind.paper 0 1).2.zOf 1| :=
  C9_spawn_spacing.2 rSpace Kind.paper 0 1 oRock 1
    (by
      simp [rSpace, mkRegistry, initPoolGo, Registry.update, Registry.updateGo,
        Registry.spawnObstacle, Registry.canSpawnObstacle, Registry.getObstacleFromPool,
        Registry.setMesh, Registry.mesh?, Registry.zOf, Registry.activeOf, List.find?]
      try norm_num
      try decide)
    (by
      simp [rSpace, mkRegistry, initPoolGo, Registry.update, Registry.updateGo,
        Registry.spawnObstacle, Registry.canSpawnObstacle, Registry.getObstacleFromPool,
        Registry.setMesh, Registry.mesh?, Registry.zOf, Registry.activeOf, List.find?]
      try norm_num
      try decide)
    (by
      simp [rSpace, mkRegistry, initPoolGo, Registry.update, Registry.updateGo,
        Registry.spawnObstacle, Registry.canSpawnObstacle, Registry.getObstacleFromPool,
        Registry.setMesh, Registry.mesh?, Registry.zOf, Registry.activeOf, List.find?]
      try norm_num
      try decide)
    (by
      simp [rSpace, mkRegistry, initPoolGo, Registry.update, Registry.updateGo,
        Registry.spawnObstacle, Registry.canSpawnObstacle, Registry.getObstacleFromPool,
        Registry.setMesh, Registry.mesh?, Registry.zOf, Registry.activeOf, List.find?]
      try norm_num
      try decide)
    (by
      simp [rSpace, mkRegistry, initPoolGo, Registry.update, Registry.updateGo,
        Registry.spawnObstacle, Registry.canSpawnObstacle, Registry.getObstacleFromPool,
        Registry.setMesh, Registry.mesh?, Registry.zOf, Registry.activeOf, List.find?]
      try norm_num
      try decide)

/-- removeObstacle leaves the active flag of every other mesh alone. -/
lemma removeObstacle_activeOf_ne (r : Registry) (o : Entry) (j : Nat)
    (hne : j ≠ o.meshId) :
    (r.removeObstacle o).activeOf j = r.activeOf j := by
  show (r.setMesh o.meshId (fun m => { m with active := false, z := 0 })).activeOf j =
    r.activeOf j
  exact activeOf_setMesh_ne r o.meshId j _ (fun _ => rfl) hne

/-- removeObstacle leaves the position of every other mesh alone. -/
lemma removeObstacle_zOf_ne (r : Registry) (o : Entry) (j : Nat)
    (hne : j ≠ o.meshId) :
    (r.removeObstacle o).zOf j = r.zOf j := by
  show (r.setMesh o.meshId (fun m => { m with active := false, z := 0 })).zOf j =
    r.zOf j
  exact zOf_setMesh_ne r o.meshId j _ (fun _ => rfl) hne

/-- C10: handling a Win collision removes exactly the collided entry from
the live list (the first structurally equal entry, which is the entry
itself when live entries are distinct), changes only the score, combo and
maxCombo session fields, keeps the pool size, and every other live entry
stays in the live list with its kind, lane, active flag and travel-axis
position untouched. -/
theorem C10_win_collision_frame (e : Engine) (o : Entry)
    (hg : e.playerGesture = getRequiredGesture o.type)
    (hmem : o ∈ e.reg.obstacles)
    (hnd : (e.reg.obstacles.map Entry.meshId).Nodup) :
    (e.handleCollision o).1.reg.obstacles = e.reg.obstacles.erase o ∧
    (e.handleCollision o).1.isRunning = e.isRunning ∧
    (e.handleCollision o).1.playerGesture = e.playerGesture ∧
    (e.handleCollision o).1.speed = e.speed ∧
    (e.handleCollision o).1.reg.pool.length = e.reg.pool.length ∧
    ∀ o2 ∈ e.reg.obstacles, o2 ≠ o →
      o2 ∈ (e.handleCollision o).1.reg.obstacles ∧
      (e.handleCollision o).1.reg.activeOf o2.meshId = e.reg.activeOf o2.meshId ∧
      (e.handleCollision o).1.reg.zOf o2.meshId = e.reg.zOf o2.meshId := by
  have hres : (e.handleCollision o).1 =
      { e with
          score := e.score + ((10 + ⌊e.speed * 5⌋ + (e.combo : Int) * 2 : Int) : ℚ)
          combo := e.combo + 1
          maxCombo := max e.maxCombo (e.combo + 1)
          reg := e.reg.removeObstacle o } :=
    congrArg Prod.fst (handleCollision_win_eq e o hg)
  rw [hres]
  refine ⟨rfl, rfl, rfl, rfl, ?_, ?_⟩
  · show (e.reg.removeObstacle o).pool.length = e.reg.pool.length
    simp [Registry.removeObstacle, Registry.setMesh]
  · intro o2 ho2mem ho2ne
    have hneId : o2.meshId ≠ o.meshId := by
      intro h
      exact ho2ne (List.inj_on_of_nodup_map hnd ho2mem hmem h)
    refine ⟨?_, ?_, ?_⟩
    · show o2 ∈ (e.reg.removeObstacle o).obstacles
      show o2 ∈ e.reg.obstacles.erase o
      exact (List.mem_erase_of_ne ho2ne).mpr ho2mem
    · exact removeObstacle_activeOf_ne e.reg o o2.meshId hneId
    · exact removeObstacle_zOf_ne e.reg o o2.meshId hneId

/-- A running session whose player holds paper, with a live rock obstacle:
the state in which a collision resolves as a Win. -/
def eWinPre : Engine :=
  { (eStart.setPlayerGesture Gesture.paper) with
      reg := ((eStart.setPlayerGesture Gesture.paper).reg.spawnObstacle Kind.rock 0 0).2 }

/-- Witness for C10: winning against the live rock removes exactly it and
keeps the session running. -/
theorem C10_witness :
    (eWinPre.handleCollision oRock).1.reg.obstacles =
      eWinPre.reg.obstacles.erase oRock ∧
    (eWinPre.handleCollision oRock).1.isRunning = eWinPre.isRunning :=
  ⟨(C10_win_collision_frame eWinPre oRock
      (by simp [eWinPre, eStart, mkEngine, Engine.startGame, Engine.setPlayerGesture,
        oRock, getRequiredGesture])
      (by decide) (by decide)).1,
   (C10_win_collision_frame eWinPre oRock
      (by simp [eWinPre, eStart, mkEngine, Engine.startGame, Engine.setPlayerGesture,
        oRock, getRequiredGesture])
      (by decide) (by decide)).2.1⟩

end SPSGame
